import Mathlib

/-!
A shallow embedding of the database connection manager in src/datase/db.py
(classes PostgresDB and SqliteDB), together with theorems settling the
frozen claims about it.  Pure computations (string parsing, property-file
parsing, configuration building, argument binding) are embedded directly;
the stateful manager is embedded as explicit state passing, with the
outcomes of external-engine calls passed as parameters where they matter.
-/

/-! ## Python string primitives -/

/-- Python whitespace characters as recognised by str.strip with no
argument: space, tab, newline, carriage return, vertical tab, form feed. -/
def pyIsSpace (c : Char) : Bool :=
  c = ' ' || c = '\t' || c = '\n' || c = '\r' || c = '\x0b' || c = '\x0c'

/-- Remove leading and trailing Python whitespace from a character list. -/
def pyStripList (cs : List Char) : List Char :=
  ((cs.dropWhile pyIsSpace).reverse.dropWhile pyIsSpace).reverse

/-- Embedding of str.strip() with no argument. -/
def pyStrip (s : String) : String :=
  String.mk (pyStripList s.data)

/-- Embedding of str.lower() (ASCII range, which covers every string the
program compares after lowering). -/
def pyLower (s : String) : String :=
  String.mk (s.data.map Char.toLower)

/-- Embedding of str.startswith(p). -/
def pyStartsWith (s p : String) : Bool :=
  s.data.take p.data.length = p.data

/-- Split a character list at the first occurrence of sep; none when sep
does not occur.  Embeds the pair of tests and operations
(sep in line) and line.split(sep, 1) used by load_properties. -/
def pySplitOnceList : List Char → Char → Option (List Char × List Char)
  | [], _ => none
  | c :: cs, sep =>
      if c = sep then some ([], cs)
      else (pySplitOnceList cs sep).map (fun p => (c :: p.1, p.2))

/-- Embedding of line.split(sep, 1) fused with the (sep in line) test. -/
def pySplitOnce (s : String) (sep : Char) : Option (String × String) :=
  (pySplitOnceList s.data sep).map (fun p => (String.mk p.1, String.mk p.2))

/-! ## Python dict with string keys (insertion order, last write wins) -/

/-- A Python dict of strings, as an association list in insertion order
with unique keys. -/
abbrev Props := List (String × String)

/-- Embedding of d[k] = v on a Python dict: replace the value in place if
the key is present, otherwise append. -/
def dictSet : Props → String → String → Props
  | [], k, v => [(k, v)]
  | kv :: rest, k, v =>
      if kv.1 = k then (k, v) :: rest else kv :: dictSet rest k v

/-- Embedding of d.get(k) on a Python dict. -/
def dictGet (d : Props) (k : String) : Option String :=
  (d.find? (fun kv => kv.1 = k)).map (fun kv => kv.2)

/-- Embedding of d.get(k, dflt) on a Python dict. -/
def dictGetD (d : Props) (k dflt : String) : String :=
  (dictGet d k).getD dflt

/-- Truthiness of an Optional[str]: falsy iff absent or empty. -/
def pyFalsyOptStr (o : Option String) : Bool :=
  match o with
  | none => true
  | some s => s = ""

/-! ## Python positional and keyword argument binding

The source declares load_properties and _to_bool inside a class body but
without a self parameter; calling them through self therefore passes the
instance as an extra positional argument.  The following definition embeds
the part of the CPython argument-binding procedure these call sites
exercise, so that each buggy call site is a direct instance of it. -/

inductive PyErr where
  | typeError (msg : String)
  | valueError (msg : String)
  | fileNotFoundError (msg : String)
  | attributeError (msg : String)
deriving Repr, DecidableEq

/-- Bind a call with posArgs positional arguments and keyword arguments
named kwArgs against a function fname whose declared parameters are params
(in order), the last numDefaults of which have defaults.  Returns the
TypeError Python raises before entering the body, if any (message texts
follow CPython wording, without the quoted argument names). -/
def pyBindArgs (fname : String) (params : List String) (numDefaults : Nat)
    (posArgs : Nat) (kwArgs : List String) : Option PyErr :=
  if posArgs > params.length then
    some (.typeError (fname ++ "() takes " ++ toString params.length ++
      " positional arguments but " ++ toString posArgs ++ " were given"))
  else
    let posBound := params.take posArgs
    match kwArgs.find? (fun k => posBound.contains k) with
    | some k =>
        some (.typeError (fname ++ "() got multiple values for argument " ++ k))
    | none =>
        match kwArgs.find? (fun k => !(params.contains k)) with
        | some k =>
            some (.typeError (fname ++ "() got an unexpected keyword argument " ++ k))
        | none =>
            match (params.take (params.length - numDefaults)).drop posArgs
                |>.find? (fun k => !(kwArgs.contains k)) with
            | some k =>
                some (.typeError (fname ++ "() missing a required argument " ++ k))
            | none => none

/-! ## PropertyStore: the parsing loop of load_properties

Both classes carry byte-identical copies of load_properties
(db.py lines 124-145 and 282-303).  The loop body below embeds lines
294-301; the file-existence check and file read are external effects, so
the loader body is a function of the list of lines the file provides. -/

/-- One iteration of the line loop of load_properties (db.py 294-301):
strip the raw line; skip it when empty or starting with a comment marker;
skip it when it has no equals sign; otherwise split at the first equals
sign and store the trimmed key and value. -/
def load_properties_line (props : Props) (raw_line : String) : Props :=
  let line := pyStrip raw_line
  if line = "" || pyStartsWith line "#" || pyStartsWith line ";" then props
  else
    match pySplitOnce line '=' with
    | none => props
    | some (key, value) => dictSet props (pyStrip key) (pyStrip value)

/-- The whole loop of load_properties over the lines of the file. -/
def load_properties_lines (lines : List String) : Props :=
  lines.foldl load_properties_line []

/-! ## The boolean coercion helper _to_bool (db.py 276-280) -/

/-- Embedding of the body of SqliteDB._to_bool: absent values yield the
default; otherwise the value is stripped, lowered and tested for
membership in the five truthy spellings.  The second parameter is named
default in the source. -/
def SqliteDB.to_bool (value : Option String) (dflt : Bool) : Bool :=
  match value with
  | none => dflt
  | some s =>
      let v := pyLower (pyStrip s)
      ["1", "true", "yes", "y", "on"].contains v

/-! ## Numeric literal conversion: int(s) and float(s)

The builders call the builtins int and float on property values.  The
following definitions embed their string-conversion grammar: surrounding
whitespace is stripped, an optional sign is allowed, digits may be grouped
by single underscores, float additionally allows a fractional part, an
exponent, and the spellings inf, infinity and nan (overflow of huge
finite literals to an infinity is not modelled; no claim depends on it). -/

/-- Consume a run of digits possibly grouped by single underscores placed
between digits, assuming the run has begun (the first character, when it
exists, is consumed only if it is a digit or a well-placed underscore
followed by a digit).  Returns the digits with underscores removed and the
unconsumed remainder. -/
def digitsUCont : List Char → List Char × List Char
  | [] => ([], [])
  | [c] => if c.isDigit then ([c], []) else ([], [c])
  | c :: d :: rest =>
      if c.isDigit then
        let p := digitsUCont (d :: rest)
        (c :: p.1, p.2)
      else if c = '_' && d.isDigit then
        let p := digitsUCont rest
        (d :: p.1, p.2)
      else ([], c :: d :: rest)

/-- Consume a maximal digit group.  The group is empty unless the input
starts with a digit (a leading underscore is not consumed). -/
def digitsU (cs : List Char) : List Char × List Char :=
  match cs with
  | c :: _ => if c.isDigit then digitsUCont cs else ([], cs)
  | [] => ([], cs)

/-- Numeric value of a digit list. -/
def digitsToNat (ds : List Char) : Nat :=
  ds.foldl (fun a c => a * 10 + (c.toNat - 48)) 0

/-- Split an optional leading sign, returning the sign as an integer. -/
def pySign : List Char → Int × List Char
  | '+' :: rest => (1, rest)
  | '-' :: rest => (-1, rest)
  | cs => (1, cs)

/-- Embedding of int(s) for a base-10 string: strip, optional sign, a
nonempty underscore-grouped digit run, nothing after. -/
def pyIntParse (s : String) : Option Int :=
  let cs := pyStripList s.data
  let p := pySign cs
  let d := digitsU p.2
  if d.1 = [] || d.2 ≠ [] then none
  else some (p.1 * (digitsToNat d.1 : Int))

/-- Result values of float(s): a finite rational, an infinity, or nan. -/
inductive PyFloat where
  | finite (q : ℚ)
  | inf
  | negInf
  | nan
deriving Repr, DecidableEq

/-- Build the finite float value sign * mantissa * 10 ^ exponent. -/
def pyFloatVal (sign : Int) (mantissa : Nat) (exponent : Int) : PyFloat :=
  .finite ((sign : ℚ) * (mantissa : ℚ) * (10 : ℚ) ^ exponent)

/-- Parse the exponent part after the mantissa: either nothing, or an e
or E followed by an optional sign and a nonempty digit run. -/
def pyFloatExp (sign : Int) (mantissa : Nat) (fracLen : Nat) :
    List Char → Option PyFloat
  | [] => some (pyFloatVal sign mantissa (-(fracLen : Int)))
  | e :: rest =>
      if e = 'e' || e = 'E' then
        let p := pySign rest
        let d := digitsU p.2
        if d.1 = [] || d.2 ≠ [] then none
        else some (pyFloatVal sign mantissa
          (p.1 * (digitsToNat d.1 : Int) - (fracLen : Int)))
      else none

/-- Parse the decimal mantissa (integer part, optional fractional part)
followed by an optional exponent.  At least one digit must appear in the
mantissa. -/
def pyFloatDecimal (sign : Int) (cs : List Char) : Option PyFloat :=
  let ip := digitsU cs
  match ip.2 with
  | '.' :: rest2 =>
      let fp := digitsU rest2
      if ip.1 = [] && fp.1 = [] then none
      else pyFloatExp sign (digitsToNat (ip.1 ++ fp.1)) fp.1.length fp.2
  | rest =>
      if ip.1 = [] then none
      else pyFloatExp sign (digitsToNat ip.1) 0 rest

/-- Embedding of float(s): strip, optional sign, then one of the special
spellings inf, infinity, nan (case-insensitively) or a decimal literal. -/
def pyFloatParse (s : String) : Option PyFloat :=
  let cs := pyStripList s.data
  let p := pySign cs
  let low := p.2.map Char.toLower
  if low = "inf".data || low = "infinity".data then
    some (if p.1 = 1 then .inf else .negInf)
  else if low = "nan".data then some .nan
  else pyFloatDecimal p.1 p.2

/-- float(s) as the program observes it: ValueError when the conversion
fails (CPython quotes the offending literal in the message; the quotes are
omitted here). -/
def pyFloat (s : String) : Except PyErr PyFloat :=
  match pyFloatParse s with
  | some f => .ok f
  | none => .error (.valueError ("could not convert string to float: " ++ s))

/-- int(s) as the program observes it: ValueError when the conversion
fails. -/
def pyInt (s : String) : Except PyErr Int :=
  match pyIntParse s with
  | some n => .ok n
  | none => .error (.valueError ("invalid literal for int() with base 10: " ++ s))

/-! ## The buggy bound call sites

load_properties is declared with zero parameters (db.py 124 and 282) yet
is called as self.load_properties(self._properties_path) (db.py 42 and
184): the bound call passes two positional arguments (the instance and
the path), so Python raises TypeError before the body runs.  _to_bool is
declared with parameters value and default and no self (db.py 276); the
call self._to_bool(x, default=True) (db.py 197) passes the instance and x
positionally, filling both parameters, and then passes default again by
keyword; the call self._to_bool(foreign_keys) (db.py 226) binds the
instance to value, so the body evaluates value.strip() on the manager
object, which has no strip attribute. -/

/-- Parameters of load_properties as declared in the source: none. -/
def load_properties_params : List String := []

/-- Parameters of _to_bool as declared in the source, the last one with a
default. -/
def SqliteDB.to_bool_params : List String := ["value", "default"]

/-- The call self.load_properties(self._properties_path): two positional
arguments bound against a zero-parameter function.  The lines parameter
stands for the content of the property file the body would read; the
body branch is unreachable because the binding always fails. -/
def load_properties_call (lines : List String) : Except PyErr Props :=
  match pyBindArgs "load_properties" load_properties_params 0 2 [] with
  | some e => .error e
  | none => .ok (load_properties_lines lines)

/-- The call self._to_bool(x, default=True) at db.py 197: binding fails
with TypeError for every input, so the body branch is unreachable. -/
def SqliteDB.to_bool_boundCallWithDefault (x : Option String) : Except PyErr Bool :=
  match pyBindArgs "_to_bool" SqliteDB.to_bool_params 1 2 ["default"] with
  | some e => .error e
  | none => .ok (SqliteDB.to_bool x true)

/-- The call self._to_bool(foreign_keys) at db.py 226: binding succeeds
with value bound to the manager instance and default bound to
foreign_keys, and the body then raises AttributeError at value.strip()
because the instance is not a string. -/
def SqliteDB.to_bool_boundCallOnInstance (_foreign_keys : String) : Except PyErr Bool :=
  match pyBindArgs "_to_bool" SqliteDB.to_bool_params 1 2 [] with
  | some e => .error e
  | none => .error (.attributeError "SqliteDB object has no attribute strip")

/-! ## ConnectionConfigBuilder, networked backend (db.py 41-72) -/

/-- The connection descriptor the networked builder assembles. -/
structure PGKwargs where
  host : String
  port : Int
  dbname : String
  user : String
  password : String
  sslmode : Option String
  connect_timeout : Option Int
deriving Repr, DecidableEq

/-- The list comprehension at db.py 51-53: the mandatory keys whose
extracted values are falsy (absent or empty), in the order of the dict
literal. -/
def PostgresDB.missingKeys (props : Props) : List String :=
  ([("db.host", dictGet props "db.host"),
    ("db.name", dictGet props "db.name"),
    ("db.user", dictGet props "db.user"),
    ("db.password", dictGet props "db.password")] : List (String × Option String))
  |>.filterMap (fun kv => if pyFalsyOptStr kv.2 then some kv.1 else none)

/-- The body of PostgresDB._build_conn_kwargs after the loader call
(db.py 44-72), as a function of the loaded mapping: validate the four
mandatory keys, reporting every missing one in a single ValueError;
convert the port (default 5432); attach the optional extras. -/
def PostgresDB.build_conn_kwargs_body (props : Props) : Except PyErr PGKwargs := do
  let host := dictGet props "db.host"
  let port := dictGetD props "db.port" "5432"
  let dbname := dictGet props "db.name"
  let user := dictGet props "db.user"
  let password := dictGet props "db.password"
  let missing := PostgresDB.missingKeys props
  if missing.isEmpty then
    let port_val ← pyInt port
    let sslmode := dictGet props "db.sslmode"
    let connect_timeout ← match dictGet props "db.connect_timeout" with
      | some ct => do
          let v ← pyInt ct
          pure (some v)
      | none => pure none
    pure { host := host.getD "", port := port_val, dbname := dbname.getD "",
           user := user.getD "", password := password.getD "",
           sslmode := sslmode, connect_timeout := connect_timeout }
  else
    throw (.valueError ("Missing required properties: " ++
      String.intercalate ", " missing))

/-- The full PostgresDB._build_conn_kwargs (db.py 41-72): the loader call
at line 42 raises TypeError, so the body after it never runs. -/
def PostgresDB.build_conn_kwargs (lines : List String) : Except PyErr PGKwargs := do
  let props ← load_properties_call lines
  PostgresDB.build_conn_kwargs_body props

/-! ## ConnectionConfigBuilder, embedded backend (db.py 180-212) -/

/-- The keyword arguments the embedded builder assembles for
sqlite3.connect. -/
structure SqliteConnectKwargs where
  timeout : PyFloat
  check_same_thread : Bool
  isolation_level : Option String
deriving Repr, DecidableEq

/-- The body of SqliteDB._build_conn_kwargs after the loader call
(db.py 186-212), as a function of the loaded mapping.  Lines 191-194
create the parent directory on the filesystem; that external effect does
not contribute to the returned value and is not modelled.  The bound call
at line 197 raises TypeError for every input, so the remainder of the
body (isolation level normalisation and the kwargs dict) is dead code,
embedded as written. -/
def SqliteDB.build_conn_kwargs_body (props : Props) :
    Except PyErr (String × SqliteConnectKwargs × Props) := do
  let db_path := dictGet props "db.path"
  if pyFalsyOptStr db_path then
    throw (.valueError "Missing required property: db.path")
  let db_path := db_path.getD ""
  let timeout ← pyFloat (dictGetD props "db.timeout" "5")
  let check_same_thread ← SqliteDB.to_bool_boundCallWithDefault
    (dictGet props "db.check_same_thread")
  let iso := match dictGet props "db.isolation_level" with
    | some s => if pyStrip s = "" then none else some s
    | none => none
  pure (db_path,
    { timeout := timeout, check_same_thread := check_same_thread,
      isolation_level := iso }, props)

/-- The full SqliteDB._build_conn_kwargs (db.py 180-212): the loader call
at line 184 raises TypeError, so the body after it never runs. -/
def SqliteDB.build_conn_kwargs (lines : List String) :
    Except PyErr (String × SqliteConnectKwargs × Props) := do
  let props ← load_properties_call lines
  SqliteDB.build_conn_kwargs_body props

/-! ## ConnectionManager state, embedded backend (class SqliteDB)

The manager is embedded as explicit state passing.  A connection handle
is a record carrying an identity (fresh identities come from a counter in
the manager state, so the counter also counts physical connections ever
created) and its current row_factory setting.  The re-entrant lock
serialises state transitions in the source; the embedding is sequential,
so the lock has no observable content here.  Outcomes of calls into the
database engine (sqlite3.connect succeeding, the journal-mode PRAGMA
statement) are passed as parameters where a claim depends on them. -/

/-- A sqlite3 connection object as the manager observes it. -/
structure SqliteConn where
  connId : Nat
  row_factory : Bool
deriving Repr, DecidableEq

/-- A sqlite3 cursor: it records the connection it came from and the
row_factory setting it picked up from the connection at creation time. -/
structure SqliteCursor where
  connId : Nat
  row_factory : Bool
deriving Repr, DecidableEq

/-- The mutable state of the SqliteDB singleton instance: the object
identity assigned at allocation, the initialization flag set by new and
init, the stored properties path, the cached connection handle, and the
counter supplying fresh connection identities. -/
structure SqliteState where
  objId : Nat
  initialized : Bool
  properties_path : String
  conn : Option SqliteConn
  nextConnId : Nat
deriving Repr, DecidableEq

/-- Embedding of SqliteDB.__new__ (db.py 162-169): the double-checked
read of the class attribute _instance.  classInstance is the class
attribute; freshId models the identity of the object allocated when the
attribute is unset.  Fields other than objId and initialized are
placeholders until init runs: after __new__ the Python object carries
only _initialized = False.  Returns the instance and the updated class
attribute. -/
def SqliteDB.new (classInstance : Option SqliteState) (freshId : Nat) :
    SqliteState × Option SqliteState :=
  match classInstance with
  | some inst => (inst, some inst)
  | none =>
      let inst : SqliteState :=
        { objId := freshId, initialized := false, properties_path := "",
          conn := none, nextConnId := 0 }
      (inst, some inst)

/-- Embedding of SqliteDB.__init__ (db.py 171-178): a second
initialization is skipped via the _initialized flag; a first one stores
the path, clears the connection and raises the flag. -/
def SqliteDB.init (self : SqliteState) (properties_path : String) : SqliteState :=
  if self.initialized then self
  else { self with properties_path := properties_path, conn := none,
                   initialized := true }

/-- Construction SqliteDB(path): __new__ followed by __init__ on the
returned object.  The class attribute and the returned reference are the
same object, so both reflect the state after __init__. -/
def SqliteDB.construct (classInstance : Option SqliteState) (freshId : Nat)
    (properties_path : String) : SqliteState × Option SqliteState :=
  let inst := (SqliteDB.new classInstance freshId).1
  let inst := SqliteDB.init inst properties_path
  (inst, some inst)

/-- Embedding of SqliteDB._apply_pragmas (db.py 214-228) as a function of
the loaded mapping.  The cursor opened on the connection and its
try-finally close are engine-side effects with no observable state here.
execJournal is the engine outcome of the journal-mode PRAGMA statement
(run only when db.journal_mode is truthy).  When db.foreign_keys is
present, line 226 evaluates the bound call self._to_bool(foreign_keys),
which raises AttributeError before any PRAGMA runs. -/
def SqliteDB.apply_pragmas (props : Props) (execJournal : Except PyErr Unit) :
    Except PyErr Unit :=
  let journal_mode := dictGet props "db.journal_mode"
  let foreign_keys := dictGet props "db.foreign_keys"
  match (if pyFalsyOptStr journal_mode then .ok () else execJournal :
      Except PyErr Unit) with
  | .error e => .error e
  | .ok _ =>
      match foreign_keys with
      | some fk =>
          match SqliteDB.to_bool_boundCallOnInstance fk with
          | .error e => .error e
          | .ok _ => .ok ()
      | none => .ok ()

/-- Embedding of SqliteDB._ensure_connection (db.py 230-239), with the
outcome of the _build_conn_kwargs call at line 236 as a parameter
(instantiated with SqliteDB.build_conn_kwargs for the faithful composed
behaviour) and the engine outcome of the journal PRAGMA as another.
sqlite3.connect allocates a fresh connection handle.  Line 237 assigns
self._conn before line 238 applies the pragmas, so a pragma failure
leaves the new connection cached while the error propagates. -/
def SqliteDB.ensure_connection (s : SqliteState)
    (buildRes : Except PyErr (String × SqliteConnectKwargs × Props))
    (execJournal : Except PyErr Unit) :
    Except PyErr SqliteConn × SqliteState :=
  match s.conn with
  | some c => (.ok c, s)
  | none =>
      match buildRes with
      | .error e => (.error e, s)
      | .ok r =>
          let c : SqliteConn := { connId := s.nextConnId, row_factory := false }
          let s1 : SqliteState :=
            { s with conn := some c, nextConnId := s.nextConnId + 1 }
          match SqliteDB.apply_pragmas r.2.2 execJournal with
          | .error e => (.error e, s1)
          | .ok _ => (.ok c, s1)

/-- Embedding of SqliteDB.get_cursor (db.py 241-249): ensure a
connection; when row_factory is requested, set row_factory on the shared
connection object (it is never reset); return a cursor, which picks up
the row_factory currently set on the connection. -/
def SqliteDB.get_cursor (s : SqliteState)
    (buildRes : Except PyErr (String × SqliteConnectKwargs × Props))
    (execJournal : Except PyErr Unit) (row_factory : Bool) :
    Except PyErr SqliteCursor × SqliteState :=
  match SqliteDB.ensure_connection s buildRes execJournal with
  | (.error e, s1) => (.error e, s1)
  | (.ok c, s1) =>
      let c := if row_factory then { c with row_factory := true } else c
      let s2 := if row_factory then { s1 with conn := some c } else s1
      (.ok { connId := c.connId, row_factory := c.row_factory }, s2)

/-- Embedding of SqliteDB.get_cursor_and_connection (db.py 251-257):
ensure a connection, then call get_cursor; the pair holds the cursor and
the shared connection object (returned at its value after get_cursor,
since the source returns the same mutable object). -/
def SqliteDB.get_cursor_and_connection (s : SqliteState)
    (buildRes : Except PyErr (String × SqliteConnectKwargs × Props))
    (execJournal : Except PyErr Unit) (row_factory : Bool) :
    Except PyErr (SqliteCursor × SqliteConn) × SqliteState :=
  match SqliteDB.ensure_connection s buildRes execJournal with
  | (.error e, s1) => (.error e, s1)
  | (.ok c, s1) =>
      match SqliteDB.get_cursor s1 buildRes execJournal row_factory with
      | (.error e, s2) => (.error e, s2)
      | (.ok cur, s2) => (.ok (cur, s2.conn.getD c), s2)

/-- Embedding of SqliteDB.commit (db.py 259-261): ensure a connection,
then delegate to the engine (an external effect with no manager-state
content). -/
def SqliteDB.commit (s : SqliteState)
    (buildRes : Except PyErr (String × SqliteConnectKwargs × Props))
    (execJournal : Except PyErr Unit) : Except PyErr Unit × SqliteState :=
  match SqliteDB.ensure_connection s buildRes execJournal with
  | (.error e, s1) => (.error e, s1)
  | (.ok _, s1) => (.ok (), s1)

/-- Embedding of SqliteDB.rollback (db.py 263-265), same shape as
commit. -/
def SqliteDB.rollback (s : SqliteState)
    (buildRes : Except PyErr (String × SqliteConnectKwargs × Props))
    (execJournal : Except PyErr Unit) : Except PyErr Unit × SqliteState :=
  match SqliteDB.ensure_connection s buildRes execJournal with
  | (.error e, s1) => (.error e, s1)
  | (.ok _, s1) => (.ok (), s1)

/-- Embedding of SqliteDB.close (db.py 267-274): under the lock, close
the connection object if present (an engine-side effect) and clear the
handle. -/
def SqliteDB.close (s : SqliteState) : SqliteState :=
  { s with conn := none }

/-! ## ConnectionManager state, networked backend (class PostgresDB)

Same embedding style as for SqliteDB.  A psycopg2 connection carries a
closed attribute (0 while open), consulted by the liveness re-check in
_ensure_connection. -/

/-- A psycopg2 connection object as the manager observes it. -/
structure PGConn where
  connId : Nat
  closed : Int
deriving Repr, DecidableEq

/-- A psycopg2 cursor: the connection it came from and whether it was
created with RealDictCursor. -/
structure PGCursor where
  connId : Nat
  dict_cursor : Bool
deriving Repr, DecidableEq

/-- The mutable state of the PostgresDB singleton instance. -/
structure PGState where
  objId : Nat
  initialized : Bool
  properties_path : String
  conn : Option PGConn
  nextConnId : Nat
deriving Repr, DecidableEq

/-- Embedding of PostgresDB.__new__ (db.py 23-30), identical in shape to
SqliteDB.__new__. -/
def PostgresDB.new (classInstance : Option PGState) (freshId : Nat) :
    PGState × Option PGState :=
  match classInstance with
  | some inst => (inst, some inst)
  | none =>
      let inst : PGState :=
        { objId := freshId, initialized := false, properties_path := "",
          conn := none, nextConnId := 0 }
      (inst, some inst)

/-- Embedding of PostgresDB.__init__ (db.py 32-39). -/
def PostgresDB.init (self : PGState) (properties_path : String) : PGState :=
  if self.initialized then self
  else { self with properties_path := properties_path, conn := none,
                   initialized := true }

/-- Construction PostgresDB(path): __new__ followed by __init__. -/
def PostgresDB.construct (classInstance : Option PGState) (freshId : Nat)
    (properties_path : String) : PGState × Option PGState :=
  let inst := (PostgresDB.new classInstance freshId).1
  let inst := PostgresDB.init inst properties_path
  (inst, some inst)

/-- The liveness test at db.py 79: create when the handle is unset or the
connection reports itself closed. -/
def PostgresDB.conn_needs_create (oc : Option PGConn) : Bool :=
  match oc with
  | none => true
  | some c => c.closed != 0

/-- Embedding of PostgresDB._ensure_connection (db.py 74-84), with the
outcome of the _build_conn_kwargs call at line 80 as a parameter
(instantiated with PostgresDB.build_conn_kwargs for the faithful
composed behaviour).  psycopg2.connect allocates a fresh open
connection. -/
def PostgresDB.ensure_connection (s : PGState)
    (buildRes : Except PyErr PGKwargs) : Except PyErr PGConn × PGState :=
  if PostgresDB.conn_needs_create s.conn then
    match buildRes with
    | .error e => (.error e, s)
    | .ok _ =>
        let c : PGConn := { connId := s.nextConnId, closed := 0 }
        (.ok c, { s with conn := some c, nextConnId := s.nextConnId + 1 })
  else (.ok ((s.conn).getD { connId := 0, closed := 0 }), s)

/-- Embedding of PostgresDB.get_cursor (db.py 86-97): ensure a
connection, then open a cursor on it, as a RealDictCursor when
requested. -/
def PostgresDB.get_cursor (s : PGState) (buildRes : Except PyErr PGKwargs)
    (dict_cursor : Bool) : Except PyErr PGCursor × PGState :=
  match PostgresDB.ensure_connection s buildRes with
  | (.error e, s1) => (.error e, s1)
  | (.ok c, s1) => (.ok { connId := c.connId, dict_cursor := dict_cursor }, s1)

/-- Embedding of PostgresDB.get_cursor_and_connection (db.py 99-105). -/
def PostgresDB.get_cursor_and_connection (s : PGState)
    (buildRes : Except PyErr PGKwargs) (dict_cursor : Bool) :
    Except PyErr (PGCursor × PGConn) × PGState :=
  match PostgresDB.ensure_connection s buildRes with
  | (.error e, s1) => (.error e, s1)
  | (.ok c, s1) =>
      match PostgresDB.get_cursor s1 buildRes dict_cursor with
      | (.error e, s2) => (.error e, s2)
      | (.ok cur, s2) => (.ok (cur, s2.conn.getD c), s2)

/-- Embedding of PostgresDB.commit (db.py 107-109). -/
def PostgresDB.commit (s : PGState) (buildRes : Except PyErr PGKwargs) :
    Except PyErr Unit × PGState :=
  match PostgresDB.ensure_connection s buildRes with
  | (.error e, s1) => (.error e, s1)
  | (.ok _, s1) => (.ok (), s1)

/-- Embedding of PostgresDB.rollback (db.py 111-113). -/
def PostgresDB.rollback (s : PGState) (buildRes : Except PyErr PGKwargs) :
    Except PyErr Unit × PGState :=
  match PostgresDB.ensure_connection s buildRes with
  | (.error e, s1) => (.error e, s1)
  | (.ok _, s1) => (.ok (), s1)

/-- Embedding of PostgresDB.close (db.py 115-122): close the connection
object if present and open (an engine-side effect) and clear the
handle. -/
def PostgresDB.close (s : PGState) : PGState :=
  { s with conn := none }

/-- The TypeError every connection-ensure path hits: the loader call
self.load_properties(self._properties_path) binds two positional
arguments against a zero-parameter function. -/
def load_properties_arity_error : PyErr :=
  .typeError "load_properties() takes 0 positional arguments but 2 were given"

/-! ## Shared lemmas -/

/-- The loader call raises for every file content, so the embedded
builder propagates that TypeError (class SqliteDB). -/
theorem sqlite_build_conn_kwargs_raises (lines : List String) :
    SqliteDB.build_conn_kwargs lines = .error load_properties_arity_error := rfl

/-- The loader call raises for every file content, so the embedded
builder propagates that TypeError (class PostgresDB). -/
theorem pg_build_conn_kwargs_raises (lines : List String) :
    PostgresDB.build_conn_kwargs lines = .error load_properties_arity_error := rfl

/-- Writing a key into a Python dict makes the value readable under that
key regardless of earlier content (last write wins). -/
theorem dictGet_dictSet (d : Props) (k v : String) :
    dictGet (dictSet d k v) k = some v := by
  induction d with
  | nil => simp [dictSet, dictGet, List.find?]
  | cons kv rest ih =>
      by_cases h : kv.1 = k
      · simp [dictSet, h, dictGet, List.find?]
      · simp only [dictSet, if_neg h]
        simpa [dictGet, List.find?, h] using ih

/-- Claim C6: the property loader skips blank lines and lines starting
with a hash or semicolon, silently skips non-comment lines without an
equals sign, splits each remaining line at the first equals sign, trims
whitespace from key and value, lets later duplicate keys overwrite
earlier ones, and loads the file of a comment, a blank line and
key = value to exactly the singleton mapping. -/
theorem C6_load_properties_line_discipline :
    (∀ (props : Props) (line : String),
      (pyStrip line = "" ∨ pyStartsWith (pyStrip line) "#" = true ∨
       pyStartsWith (pyStrip line) ";" = true) →
      load_properties_line props line = props)
  ∧ (∀ (props : Props) (line : String),
      pySplitOnce (pyStrip line) '=' = none →
      load_properties_line props line = props)
  ∧ (∀ (props : Props) (line k v : String),
      pyStrip line ≠ "" → pyStartsWith (pyStrip line) "#" = false →
      pyStartsWith (pyStrip line) ";" = false →
      pySplitOnce (pyStrip line) '=' = some (k, v) →
      load_properties_line props line = dictSet props (pyStrip k) (pyStrip v))
  ∧ (∀ (d : Props) (k v : String), dictGet (dictSet d k v) k = some v)
  ∧ load_properties_lines ["# comment", "", "key = value"] = [("key", "value")] := by
  refine ⟨?_, ?_, ?_, dictGet_dictSet, rfl⟩
  · intro props line h
    have hc : (decide (pyStrip line = "") || pyStartsWith (pyStrip line) "#" ||
        pyStartsWith (pyStrip line) ";") = true := by
      rcases h with h | h | h <;> simp [h]
    simp [load_properties_line, hc]
  · intro props line h
    by_cases hc : (decide (pyStrip line = "") || pyStartsWith (pyStrip line) "#" ||
        pyStartsWith (pyStrip line) ";") = true
    · simp [load_properties_line, hc]
    · simp [load_properties_line, hc, h]
  · intro props line k v h1 h2 h3 h4
    simp [load_properties_line, h1, h2, h3, h4]

/-- Claim C7, counterexample: the claim says the value 0 coerces to the
caller-supplied default, but with default true the helper returns
false. -/
theorem C7_counterexample_zero_ignores_default :
    SqliteDB.to_bool (some "0") true ≠ true := by decide

/-- Claim C7 as amended: the helper returns true iff its value, trimmed
and lowercased, is one of the five truthy spellings; only an absent
(None) value coerces to the caller-supplied default, while 0, false and
the empty string coerce to false regardless of the default. -/
theorem C7_to_bool_amended :
    (∀ (v : String) (d : Bool),
      SqliteDB.to_bool (some v) d =
        ["1", "true", "yes", "y", "on"].contains (pyLower (pyStrip v)))
  ∧ (∀ d : Bool, SqliteDB.to_bool none d = d)
  ∧ (∀ d : Bool,
      SqliteDB.to_bool (some "Yes") d = true ∧
      SqliteDB.to_bool (some "ON") d = true ∧
      SqliteDB.to_bool (some "1") d = true ∧
      SqliteDB.to_bool (some "0") d = false ∧
      SqliteDB.to_bool (some "false") d = false ∧
      SqliteDB.to_bool (some "") d = false) :=
  ⟨fun _ _ => rfl, fun _ => rfl,
   fun _ => ⟨rfl, rfl, rfl, rfl, rfl, rfl⟩⟩

/-- Claim C5: for every networked-backend property mapping, if any of the
four mandatory keys is missing or empty the builder fails with one
ValueError whose message names exactly the missing keys, and when all
four are present (with the port and connect timeout keys absent) it
succeeds with the port defaulting to 5432. -/
theorem C5_networked_builder_validation (props : Props) :
    (PostgresDB.missingKeys props ≠ [] →
      PostgresDB.build_conn_kwargs_body props =
        .error (.valueError ("Missing required properties: " ++
          String.intercalate ", " (PostgresDB.missingKeys props))))
  ∧ (PostgresDB.missingKeys props = [] →
      dictGet props "db.port" = none →
      dictGet props "db.connect_timeout" = none →
      ∃ k, PostgresDB.build_conn_kwargs_body props = .ok k ∧ k.port = 5432) := by
  constructor
  · intro h
    have he : (PostgresDB.missingKeys props).isEmpty = false := by
      cases hm : PostgresDB.missingKeys props
      · exact absurd hm h
      · rfl
    simp only [PostgresDB.build_conn_kwargs_body, he]
    rfl
  · intro h1 h2 h3
    have heq : PostgresDB.build_conn_kwargs_body props =
        .ok { host := (dictGet props "db.host").getD "", port := 5432,
              dbname := (dictGet props "db.name").getD "",
              user := (dictGet props "db.user").getD "",
              password := (dictGet props "db.password").getD "",
              sslmode := dictGet props "db.sslmode", connect_timeout := none } := by
      simp only [PostgresDB.build_conn_kwargs_body, h1, List.isEmpty_nil, if_true,
        dictGetD, h2, h3, Option.getD_none]
      rfl
    exact ⟨_, heq, rfl⟩

/-- Claim C5, witness: missing db.host and db.user together yield one
error naming both; a mapping with all four keys yields a descriptor with
port 5432. -/
theorem C5_networked_builder_validation_witness :
    PostgresDB.build_conn_kwargs_body [("db.name", "x"), ("db.password", "y")] =
      .error (.valueError "Missing required properties: db.host, db.user")
  ∧ (∃ k, PostgresDB.build_conn_kwargs_body
      [("db.host", "h"), ("db.name", "n"), ("db.user", "u"), ("db.password", "w")] =
        .ok k ∧ k.port = 5432) := by
  constructor
  · exact ((C5_networked_builder_validation _).1 (by decide)).trans rfl
  · exact (C5_networked_builder_validation _).2 (by decide) (by decide) (by decide)

/-- Claim C8 is contradicted by the code: the embedded builder can accept
no mapping at all, because after parsing the timeout it always raises
TypeError at the bound call self._to_bool(..., default=True).  With
db.path set and db.timeout absent the claim expects success with timeout
5.0, but the builder raises; a non-numeric timeout does raise ValueError
first; a negative timeout such as -3 is not rejected by any positivity
check (the parse succeeds and the builder proceeds to the same
TypeError). -/
theorem C8_embedded_builder_never_accepts :
    (∀ props : Props, ∃ e, SqliteDB.build_conn_kwargs_body props = .error e)
  ∧ SqliteDB.build_conn_kwargs_body [("db.path", ":memory:")] =
      .error (.typeError "_to_bool() got multiple values for argument default")
  ∧ SqliteDB.build_conn_kwargs_body [("db.path", ":memory:"), ("db.timeout", "abc")] =
      .error (.valueError "could not convert string to float: abc")
  ∧ (pyFloatParse "-3").isSome = true
  ∧ SqliteDB.build_conn_kwargs_body [("db.path", ":memory:"), ("db.timeout", "-3")] =
      .error (.typeError "_to_bool() got multiple values for argument default") := by
  refine ⟨?_, rfl, rfl, rfl, rfl⟩
  intro props
  cases hp : pyFalsyOptStr (dictGet props "db.path") with
  | true =>
      refine ⟨.valueError "Missing required property: db.path", ?_⟩
      simp only [SqliteDB.build_conn_kwargs_body, hp]
      rfl
  | false =>
      cases hf : pyFloat (dictGetD props "db.timeout" "5") with
      | error e =>
          refine ⟨e, ?_⟩
          simp only [SqliteDB.build_conn_kwargs_body, hp, hf]
          rfl
      | ok t =>
          refine ⟨.typeError "_to_bool() got multiple values for argument default", ?_⟩
          simp only [SqliteDB.build_conn_kwargs_body, hp, hf]
          rfl

/-- Claim C2: on a fresh manager of either backend (no cached
connection), every operation that must ensure a connection raises the
loader-arity TypeError before any connection can be produced, for every
possible property-file content, leaving the state unchanged. -/
theorem C2_fresh_manager_every_op_raises (lines : List String)
    (ss : SqliteState) (ps : PGState) (exec : Except PyErr Unit) (b : Bool)
    (hs : ss.conn = none) (hp : ps.conn = none) :
    SqliteDB.ensure_connection ss (SqliteDB.build_conn_kwargs lines) exec =
      (.error load_properties_arity_error, ss)
  ∧ SqliteDB.get_cursor ss (SqliteDB.build_conn_kwargs lines) exec b =
      (.error load_properties_arity_error, ss)
  ∧ SqliteDB.get_cursor_and_connection ss (SqliteDB.build_conn_kwargs lines) exec b =
      (.error load_properties_arity_error, ss)
  ∧ SqliteDB.commit ss (SqliteDB.build_conn_kwargs lines) exec =
      (.error load_properties_arity_error, ss)
  ∧ SqliteDB.rollback ss (SqliteDB.build_conn_kwargs lines) exec =
      (.error load_properties_arity_error, ss)
  ∧ PostgresDB.ensure_connection ps (PostgresDB.build_conn_kwargs lines) =
      (.error load_properties_arity_error, ps)
  ∧ PostgresDB.get_cursor ps (PostgresDB.build_conn_kwargs lines) b =
      (.error load_properties_arity_error, ps)
  ∧ PostgresDB.get_cursor_and_connection ps (PostgresDB.build_conn_kwargs lines) b =
      (.error load_properties_arity_error, ps)
  ∧ PostgresDB.commit ps (PostgresDB.build_conn_kwargs lines) =
      (.error load_properties_arity_error, ps)
  ∧ PostgresDB.rollback ps (PostgresDB.build_conn_kwargs lines) =
      (.error load_properties_arity_error, ps) := by
  have hb := sqlite_build_conn_kwargs_raises lines
  have hbp := pg_build_conn_kwargs_raises lines
  have e1 : SqliteDB.ensure_connection ss (SqliteDB.build_conn_kwargs lines) exec =
      (.error load_properties_arity_error, ss) := by
    simp [SqliteDB.ensure_connection, hs, hb]
  have e2 : PostgresDB.ensure_connection ps (PostgresDB.build_conn_kwargs lines) =
      (.error load_properties_arity_error, ps) := by
    simp [PostgresDB.ensure_connection, PostgresDB.conn_needs_create, hp, hbp]
  refine ⟨e1, ?_, ?_, ?_, ?_, e2, ?_, ?_, ?_, ?_⟩
  · simp [SqliteDB.get_cursor, e1]
  · simp [SqliteDB.get_cursor_and_connection, e1]
  · simp [SqliteDB.commit, e1]
  · simp [SqliteDB.rollback, e1]
  · simp [PostgresDB.get_cursor, e2]
  · simp [PostgresDB.get_cursor_and_connection, e2]
  · simp [PostgresDB.commit, e2]
  · simp [PostgresDB.rollback, e2]

/-- Claim C2, witness at concrete fresh manager states. -/
theorem C2_fresh_manager_every_op_raises_witness :
    let ss : SqliteState :=
      { objId := 0, initialized := true, properties_path := "p",
        conn := none, nextConnId := 0 }
    let ps : PGState :=
      { objId := 0, initialized := true, properties_path := "p",
        conn := none, nextConnId := 0 }
    SqliteDB.get_cursor ss (SqliteDB.build_conn_kwargs ["db.path=:memory:"]) (.ok ()) true =
      (.error load_properties_arity_error, ss)
  ∧ PostgresDB.commit ps (PostgresDB.build_conn_kwargs ["db.host=h"]) =
      (.error load_properties_arity_error, ps) := by
  refine ⟨?_, ?_⟩
  · exact (C2_fresh_manager_every_op_raises ["db.path=:memory:"] _
      { objId := 0, initialized := true, properties_path := "p",
        conn := none, nextConnId := 0 } (.ok ()) true rfl rfl).2.1
  · exact (C2_fresh_manager_every_op_raises ["db.host=h"]
      { objId := 0, initialized := true, properties_path := "p",
        conn := none, nextConnId := 0 }
      { objId := 0, initialized := true, properties_path := "p",
        conn := none, nextConnId := 0 } (.ok ()) true rfl rfl).2.2.2.2.2.2.2.2.1

/-- Claim C1 is contradicted by the code: a first-time get_cursor call on
a freshly constructed manager of either backend raises the loader-arity
TypeError before reaching connection creation, and so does a second call;
no physical connection is ever created (the connection counter stays at
zero and the handle stays unset), regardless of scheduling, because the
failure precedes the creation step in every call.  This also contradicts
the usage in src/datase/dbtest.py, which expects get_cursor to succeed. -/
theorem C1_get_cursor_never_creates_a_connection :
    let s0 : SqliteState :=
      (SqliteDB.construct none 0 "../resources/hexawar.properties").1
    let r1 := SqliteDB.get_cursor s0 (SqliteDB.build_conn_kwargs []) (.ok ()) true
    let r2 := SqliteDB.get_cursor r1.2 (SqliteDB.build_conn_kwargs []) (.ok ()) true
    let p0 := (PostgresDB.construct none 0 "../resources/hexawar.properties").1
    let q1 := PostgresDB.get_cursor p0 (PostgresDB.build_conn_kwargs []) false
    r1.1 = .error load_properties_arity_error
  ∧ r2.1 = .error load_properties_arity_error
  ∧ r2.2.conn = none ∧ r2.2.nextConnId = 0
  ∧ q1.1 = .error load_properties_arity_error
  ∧ q1.2.conn = none ∧ q1.2.nextConnId = 0 :=
  ⟨rfl, rfl, rfl, rfl, rfl, rfl, rfl⟩

/-- Claim C4 is contradicted by the code on its recreation clause: close
clears the connection handle and closing twice is not an error, but a
subsequent operation does not recreate the connection; it raises the
loader-arity TypeError for every property-file content, on both
backends. -/
theorem C4_close_idempotent_but_no_lazy_reinit (s : SqliteState)
    (p : PGState) (lines : List String) (exec : Except PyErr Unit) (b : Bool) :
    (SqliteDB.close s).conn = none
  ∧ SqliteDB.close (SqliteDB.close s) = SqliteDB.close s
  ∧ SqliteDB.get_cursor (SqliteDB.close s) (SqliteDB.build_conn_kwargs lines) exec b =
      (.error load_properties_arity_error, SqliteDB.close s)
  ∧ SqliteDB.commit (SqliteDB.close s) (SqliteDB.build_conn_kwargs lines) exec =
      (.error load_properties_arity_error, SqliteDB.close s)
  ∧ SqliteDB.rollback (SqliteDB.close s) (SqliteDB.build_conn_kwargs lines) exec =
      (.error load_properties_arity_error, SqliteDB.close s)
  ∧ (PostgresDB.close p).conn = none
  ∧ PostgresDB.close (PostgresDB.close p) = PostgresDB.close p
  ∧ PostgresDB.get_cursor (PostgresDB.close p) (PostgresDB.build_conn_kwargs lines) b =
      (.error load_properties_arity_error, PostgresDB.close p)
  ∧ PostgresDB.commit (PostgresDB.close p) (PostgresDB.build_conn_kwargs lines) =
      (.error load_properties_arity_error, PostgresDB.close p)
  ∧ PostgresDB.rollback (PostgresDB.close p) (PostgresDB.build_conn_kwargs lines) =
      (.error load_properties_arity_error, PostgresDB.close p) := by
  have hb := sqlite_build_conn_kwargs_raises lines
  have hbp := pg_build_conn_kwargs_raises lines
  have e1 : SqliteDB.ensure_connection (SqliteDB.close s)
      (SqliteDB.build_conn_kwargs lines) exec =
      (.error load_properties_arity_error, SqliteDB.close s) := by
    simp [SqliteDB.ensure_connection, SqliteDB.close, hb]
  have e2 : PostgresDB.ensure_connection (PostgresDB.close p)
      (PostgresDB.build_conn_kwargs lines) =
      (.error load_properties_arity_error, PostgresDB.close p) := by
    simp [PostgresDB.ensure_connection, PostgresDB.conn_needs_create,
      PostgresDB.close, hbp]
  refine ⟨rfl, rfl, ?_, ?_, ?_, rfl, rfl, ?_, ?_, ?_⟩
  · simp [SqliteDB.get_cursor, e1]
  · simp [SqliteDB.commit, e1]
  · simp [SqliteDB.rollback, e1]
  · simp [PostgresDB.get_cursor, e2]
  · simp [PostgresDB.commit, e2]
  · simp [PostgresDB.rollback, e2]

/-- Claim C3, counterexample: with a successfully built configuration
whose mapping carries db.foreign_keys, session tuning fails (the bound
_to_bool call raises AttributeError), the error is surfaced, yet the
manager state caches the half-initialized connection: the handle is set,
not unset as the claim states. -/
theorem C3_counterexample_failed_tuning_is_cached :
    let s0 : SqliteState :=
      { objId := 0, initialized := true, properties_path := "p",
        conn := none, nextConnId := 0 }
    let props : Props := [("db.path", ":memory:"), ("db.foreign_keys", "true")]
    let kw : SqliteConnectKwargs :=
      { timeout := .finite 5, check_same_thread := true, isolation_level := none }
    let r := SqliteDB.ensure_connection s0 (.ok (":memory:", kw, props)) (.ok ())
    r.1 = .error (.attributeError "SqliteDB object has no attribute strip")
  ∧ r.2.conn = some { connId := 0, row_factory := false } :=
  ⟨rfl, rfl⟩

/-- Claim C3 as amended: when session tuning fails after the physical
connection is created, the error is surfaced, but the half-initialized
connection is cached in the manager state (the handle is assigned before
the pragmas are applied), and the next call returns that cached
connection without retrying creation. -/
theorem C3_amended_tuning_failure_keeps_connection (s : SqliteState)
    (path : String) (kw : SqliteConnectKwargs) (props : Props)
    (exec : Except PyErr Unit) (e : PyErr)
    (hconn : s.conn = none)
    (hfail : SqliteDB.apply_pragmas props exec = .error e) :
    let c : SqliteConn := { connId := s.nextConnId, row_factory := false }
    let r := SqliteDB.ensure_connection s (.ok (path, kw, props)) exec
    r.1 = .error e
  ∧ r.2.conn = some c
  ∧ (∀ (b2 : Except PyErr (String × SqliteConnectKwargs × Props))
       (e2 : Except PyErr Unit),
       SqliteDB.ensure_connection r.2 b2 e2 = (.ok c, r.2)) := by
  refine ⟨?_, ?_, ?_⟩
  · simp [SqliteDB.ensure_connection, hconn, hfail]
  · simp [SqliteDB.ensure_connection, hconn, hfail]
  · intro b2 e2
    simp [SqliteDB.ensure_connection, hconn, hfail]

/-- Claim C3 as amended, witness at a concrete state and mapping. -/
theorem C3_amended_tuning_failure_keeps_connection_witness :
    let s0 : SqliteState :=
      { objId := 1, initialized := true, properties_path := "p",
        conn := none, nextConnId := 0 }
    let props : Props := [("db.path", ":memory:"), ("db.foreign_keys", "off")]
    let kw : SqliteConnectKwargs :=
      { timeout := .finite 5, check_same_thread := true, isolation_level := none }
    let r := SqliteDB.ensure_connection s0 (.ok (":memory:", kw, props)) (.ok ())
    r.1 = .error (.attributeError "SqliteDB object has no attribute strip")
  ∧ r.2.conn = some { connId := 0, row_factory := false }
  ∧ (∀ (b2 : Except PyErr (String × SqliteConnectKwargs × Props))
       (e2 : Except PyErr Unit),
       SqliteDB.ensure_connection r.2 b2 e2 =
         (.ok { connId := 0, row_factory := false }, r.2)) :=
  C3_amended_tuning_failure_keeps_connection
    { objId := 1, initialized := true, properties_path := "p",
      conn := none, nextConnId := 0 }
    ":memory:"
    { timeout := .finite 5, check_same_thread := true, isolation_level := none }
    [("db.path", ":memory:"), ("db.foreign_keys", "off")]
    (.ok ()) (.attributeError "SqliteDB object has no attribute strip") rfl rfl

/-- Claim C9: on the embedded backend, requesting a cursor with the
mapping option mutates the row factory of the shared connection and it is
never reset, so a later request with the option off still yields a
name-addressable cursor and leaves the state unchanged. -/
theorem C9_row_factory_leaks_to_later_cursors (s : SqliteState)
    (c : SqliteConn)
    (b1 b2 : Except PyErr (String × SqliteConnectKwargs × Props))
    (e1 e2 : Except PyErr Unit)
    (h : s.conn = some c) :
    let r1 := SqliteDB.get_cursor s b1 e1 true
    let r2 := SqliteDB.get_cursor r1.2 b2 e2 false
    r1.1 = .ok { connId := c.connId, row_factory := true }
  ∧ r1.2.conn = some { c with row_factory := true }
  ∧ r2.1 = .ok { connId := c.connId, row_factory := true }
  ∧ r2.2 = r1.2 := by
  refine ⟨?_, ?_, ?_, ?_⟩ <;>
    simp [SqliteDB.get_cursor, SqliteDB.ensure_connection, h]

/-- Claim C9, witness at a concrete cached-connection state. -/
theorem C9_row_factory_leaks_to_later_cursors_witness :
    let s0 : SqliteState :=
      { objId := 0, initialized := true, properties_path := "p",
        conn := some { connId := 7, row_factory := false }, nextConnId := 8 }
    let r1 := SqliteDB.get_cursor s0 (.error load_properties_arity_error) (.ok ()) true
    let r2 := SqliteDB.get_cursor r1.2 (.error load_properties_arity_error) (.ok ()) false
    r1.1 = .ok { connId := 7, row_factory := true }
  ∧ r1.2.conn = some { connId := 7, row_factory := true }
  ∧ r2.1 = .ok { connId := 7, row_factory := true }
  ∧ r2.2 = r1.2 :=
  C9_row_factory_leaks_to_later_cursors
    { objId := 0, initialized := true, properties_path := "p",
      conn := some { connId := 7, row_factory := false }, nextConnId := 8 }
    { connId := 7, row_factory := false }
    (.error load_properties_arity_error) (.error load_properties_arity_error)
    (.ok ()) (.ok ()) rfl

/-- Claim C10: after the first construction of a manager, a second
construction with any path (including a different one) returns the same
instance, leaves the stored properties path and all other state
unchanged, and ignores the new path argument; likewise for the networked
backend. -/
theorem C10_second_construction_is_identity (p1 p2 : String) (id1 id2 : Nat) :
    let r1 : SqliteState × Option SqliteState := SqliteDB.construct none id1 p1
    let r2 := SqliteDB.construct r1.2 id2 p2
    let q1 := PostgresDB.construct none id1 p1
    let q2 := PostgresDB.construct q1.2 id2 p2
    r2.1 = r1.1 ∧ r2.2 = r1.2
  ∧ r1.1.properties_path = p1 ∧ r2.1.properties_path = p1 ∧ r2.1.objId = id1
  ∧ q2.1 = q1.1 ∧ q2.2 = q1.2
  ∧ q1.1.properties_path = p1 ∧ q2.1.properties_path = p1 ∧ q2.1.objId = id1 :=
  ⟨rfl, rfl, rfl, rfl, rfl, rfl, rfl, rfl, rfl, rfl⟩

/-- Claim C6, witness: concrete lines exercising each branch of the
loader loop. -/
theorem C6_load_properties_line_discipline_witness :
    load_properties_line [] "  # note" = []
  ∧ load_properties_line [] "no equals sign" = []
  ∧ load_properties_line [] " key = value " = [("key", "value")]
  ∧ dictGet (dictSet [("key", "old")] "key" "new") "key" = some "new"
  ∧ load_properties_lines ["# comment", "", "key = value"] = [("key", "value")] := by
  refine ⟨?_, ?_, ?_, ?_, ?_⟩
  · exact C6_load_properties_line_discipline.1 [] "  # note" (Or.inr (Or.inl rfl))
  · exact C6_load_properties_line_discipline.2.1 [] "no equals sign" rfl
  · exact (C6_load_properties_line_discipline.2.2.1 [] " key = value "
      "key " " value" (by decide) rfl rfl rfl).trans rfl
  · exact C6_load_properties_line_discipline.2.2.2.1 [("key", "old")] "key" "new"
  · exact C6_load_properties_line_discipline.2.2.2.2
